import Mathlib

/-!  Shallow embedding of the data normalization and analytics pipeline of
`src/utils/data-parser.ts` (DV_Dashboard), together with proofs about the
behaviour of the embedded operations.

Modelling conventions:
* JavaScript numbers are modelled as exact rationals (`ℚ`); calendar years,
  which are integral everywhere the analytics functions consume them, are
  modelled as `ℤ`.
* A JavaScript value that is `NaN` or `±Infinity` is modelled as `Option.none`
  where such a value can arise (the trend percentages of the Benchmark
  Engine); every other arithmetic path of the source stays finite.
* `Array.prototype.sort` (a stable comparator sort) is modelled by insertion
  sort; the comparator-less `sort()` used on year lists compares decimal
  string representations, which is modelled explicitly.
* String handling (`toLowerCase`, `includes`, `parseFloat`, `Number`) is
  modelled over the character lists of Lean strings; lower-casing is ASCII
  (matching `Char.toLower`), and numeric parsing models finite decimal
  notation (the literals `Infinity`/`NaN` and hex/octal forms are outside
  the model; no claim depends on them).
-/

/-- A loosely-typed scalar cell of a raw input row: a string or a number. -/
inductive JSValue where
  | str (s : String)
  | num (q : ℚ)
deriving DecidableEq, Repr

/-- A raw input row: an insertion-ordered mapping from string keys to values,
as produced by the file decoders. -/
abbrev RawRow := List (String × JSValue)

/-- ASCII lower-casing of a string, modelling `s.toLowerCase()` on the ASCII
header names the source deals with. -/
def strToLower (s : String) : String := ⟨s.data.map Char.toLower⟩

/-- Whether `t` is a leading segment of `s` (on character lists). -/
def listLeadsWith : List Char → List Char → Bool
  | [], _ => true
  | _ :: _, [] => false
  | a :: as, b :: bs => a == b && listLeadsWith as bs

/-- Whether `t` occurs contiguously inside `s` (on character lists). -/
def listOccursIn (t : List Char) : List Char → Bool
  | [] => t.isEmpty
  | c :: rest => listLeadsWith t (c :: rest) || listOccursIn t rest

/-- JavaScript `s.includes(t)`: substring containment. -/
def strIncludes (s t : String) : Bool := listOccursIn t.toList s.toList

/-- Code-unit lexicographic `≤` on character lists, as JavaScript compares
strings (identical to code-point order on the ASCII strings involved). -/
def listLexLe : List Char → List Char → Bool
  | [], _ => true
  | _ :: _, [] => false
  | a :: as, b :: bs =>
    if a.toNat < b.toNat then true
    else if b.toNat < a.toNat then false
    else listLexLe as bs

/-- JavaScript string `≤` used by the default (comparator-less) sort. -/
def strLeJS (s t : String) : Bool := listLexLe s.data t.data

/-- Decimal digit character. -/
def digitChar (n : ℕ) : Char := Char.ofNat (48 + n)

/-- Digit characters of `n`, most significant first; the first argument is
recursion fuel (any fuel `≥` the digit count of `n` gives the digits). -/
def natToCharsAux : ℕ → ℕ → List Char
  | 0, _ => []
  | fuel + 1, n =>
    if n < 10 then [digitChar n] else natToCharsAux fuel (n / 10) ++ [digitChar (n % 10)]

/-- Decimal string of an integer, as JavaScript string conversion produces for
integral numbers (used by template literals and the comparator-less sort). -/
def jsIntToString (i : ℤ) : String :=
  if i < 0 then ⟨'-' :: natToCharsAux i.natAbs.succ i.natAbs⟩
  else ⟨natToCharsAux i.toNat.succ i.toNat⟩

/-- Numeric value of a digit character. -/
def digitToNat (c : Char) : ℕ := c.toNat - 48

/-- Reads a maximal run of decimal digits: returns the accumulated value, the
number of digits read, and the remaining characters. -/
def readDigits : List Char → ℕ → ℕ → ℕ × ℕ × List Char
  | c :: rest, acc, n =>
    if c.isDigit then readDigits rest (10 * acc + digitToNat c) (n + 1) else (acc, n, c :: rest)
  | [], acc, n => (acc, n, [])

/-- Longest-prefix decimal parse underlying JavaScript `parseFloat`; `none`
models a `NaN` result (no leading numeric prefix). -/
def parseFloatChars (cs : List Char) : Option ℚ :=
  let cs := cs.dropWhile Char.isWhitespace
  let sc : ℚ × List Char :=
    match cs with
    | '-' :: rest => (-1, rest)
    | '+' :: rest => (1, rest)
    | _ => (1, cs)
  let ipr := readDigits sc.2 0 0
  let fpr : ℕ × ℕ × List Char :=
    match ipr.2.2 with
    | '.' :: rest => readDigits rest 0 0
    | _ => (0, 0, ipr.2.2)
  if ipr.2.1 + fpr.2.1 = 0 then none
  else
    let base : ℚ := (ipr.1 : ℚ) + (fpr.1 : ℚ) / (10 : ℚ) ^ fpr.2.1
    let expVal : ℤ :=
      match fpr.2.2 with
      | 'e' :: rest | 'E' :: rest =>
        let esr : ℤ × List Char :=
          match rest with
          | '-' :: r => (-1, r)
          | '+' :: r => (1, r)
          | _ => (1, rest)
        let er := readDigits esr.2 0 0
        if er.2.1 = 0 then 0 else esr.1 * er.1
      | _ => 0
    some (sc.1 * base * (10 : ℚ) ^ expVal)

/-- Full-string numeric conversion `Number(s)` restricted to finite decimal
notation; `none` models `NaN`. A whitespace-only string converts to `0`. -/
def numberChars (cs : List Char) : Option ℚ :=
  let cs := (((cs.dropWhile Char.isWhitespace).reverse).dropWhile Char.isWhitespace).reverse
  if cs.isEmpty then some 0
  else
    let sc : ℚ × List Char :=
      match cs with
      | '-' :: rest => (-1, rest)
      | '+' :: rest => (1, rest)
      | _ => (1, cs)
    let ipr := readDigits sc.2 0 0
    let fpr : ℕ × ℕ × List Char :=
      match ipr.2.2 with
      | '.' :: rest => readDigits rest 0 0
      | _ => (0, 0, ipr.2.2)
    if ipr.2.1 + fpr.2.1 = 0 then none
    else
      let base : ℚ := (ipr.1 : ℚ) + (fpr.1 : ℚ) / (10 : ℚ) ^ fpr.2.1
      match fpr.2.2 with
      | [] => some (sc.1 * base)
      | 'e' :: rest | 'E' :: rest =>
        let esr : ℤ × List Char :=
          match rest with
          | '-' :: r => (-1, r)
          | '+' :: r => (1, r)
          | _ => (1, rest)
        let er := readDigits esr.2 0 0
        if er.2.1 = 0 ∨ er.2.2 ≠ [] then none
        else some (sc.1 * base * (10 : ℚ) ^ (esr.1 * er.1))
      | _ => none

/-- JavaScript `parseFloat(v)` on a cell value; `none` models `NaN`. -/
def parseFloatJS : JSValue → Option ℚ
  | .num q => some q
  | .str s => parseFloatChars s.data

/-- The `isNumeric` helper of data-parser.ts (lines 175-179): numbers are
numeric; a string is numeric when `parseFloat` succeeds and `Number` is
finite. -/
def isNumeric : JSValue → Bool
  | .num _ => true
  | .str s => (parseFloatChars s.data).isSome && (numberChars s.data).isSome

/-- JavaScript object indexing `row[key]` (`none` = `undefined`). -/
def jsGet (row : RawRow) (k : String) : Option JSValue :=
  (row.find? (fun e => e.1 == k)).map (·.2)

/-- JavaScript property assignment `row[key] = v`: the first insertion fixes
the key's position, a later assignment overwrites the value in place. -/
def jsSet (row : RawRow) (k : String) (v : JSValue) : RawRow :=
  if row.any (fun e => e.1 == k) then row.map (fun e => if e.1 == k then (k, v) else e)
  else row ++ [(k, v)]

/-- The key-lower-casing loop at the top of `processRow` and
`identifyColumnMapping` (lines 97-101 and 67-71). -/
def normalizeRow (row : RawRow) : RawRow :=
  row.foldl (fun acc e => jsSet acc (strToLower e.1) e.2) []

/-- The result of the Column Resolver: the input key resolved for each of the
four canonical fields, `""` meaning unresolved. -/
structure ColumnMapping where
  stateField : String
  yearField : String
  deforestationField : String
  reforestationField : String
deriving DecidableEq, Repr

/-- Candidate names for the region column (data-parser.ts line 74). -/
def stateCandidates : List String :=
  ["state", "region", "area", "province", "district", "location", "territory"]

/-- Candidate names for the year column (line 75). -/
def yearCandidates : List String := ["year", "date", "period", "time", "yr"]

/-- Candidate names for the loss column (line 76). -/
def deforestationCandidates : List String :=
  ["deforestation", "forest_loss", "treeloss", "tree_loss", "loss", "forest_decrease", "logging"]

/-- Candidate names for the gain column (line 77). -/
def reforestationCandidates : List String :=
  ["reforestation", "forest_gain", "treegain", "tree_gain", "gain", "forest_increase", "planting"]

/-- `Object.keys(normalizedRow).find(key => candidates.some(c => key.includes(c.toLowerCase()))) || ''`. -/
def findField (keys : List String) (candidates : List String) : String :=
  (keys.find? (fun key => candidates.any (fun c => strIncludes key (strToLower c)))).getD ""

/-- The Column Resolver `identifyColumnMapping` (lines 61-93). -/
def identifyColumnMapping (row : RawRow) : ColumnMapping :=
  let nrow := normalizeRow row
  let keys := nrow.map (·.1)
  { stateField := findField keys stateCandidates
    yearField := findField keys yearCandidates
    deforestationField := findField keys deforestationCandidates
    reforestationField := findField keys reforestationCandidates }

/-- `parseFloat(v) || 0`: `0` when the cell is absent or parses to `NaN`. -/
def parseFloatOr0 (v : Option JSValue) : ℚ := (v.bind parseFloatJS).getD 0

/-- The loss/gain extraction of the Row Normalizer `processRow`
(data-parser.ts lines 137-159), as a function of the normalized row and the
resolved column mapping: resolved fields are parsed with `parseFloat(·) || 0`;
unresolved fields fall back to the row's numeric fields, excluding keys the
resolved year field name contains and (for the gain) the key equal to the
resolved loss field name. -/
def extractAmounts (normalizedRow : RawRow) (m : ColumnMapping) : ℚ × ℚ :=
  let deforestation : ℚ :=
    if m.deforestationField != "" then
      parseFloatOr0 (jsGet normalizedRow (strToLower m.deforestationField))
    else
      let numericFields := (normalizedRow.map (·.1)).filter fun key =>
        (match jsGet normalizedRow key with
         | some v => isNumeric v
         | none => false) && !(strIncludes m.yearField key)
      match numericFields with
      | k :: _ => parseFloatOr0 (jsGet normalizedRow k)
      | [] => 0
  let reforestation : ℚ :=
    if m.reforestationField != "" then
      parseFloatOr0 (jsGet normalizedRow (strToLower m.reforestationField))
    else
      let numericFields := (normalizedRow.map (·.1)).filter fun key =>
        ((match jsGet normalizedRow key with
          | some v => isNumeric v
          | none => false) && !(strIncludes m.yearField key)) && key != m.deforestationField
      match numericFields with
      | k :: _ => parseFloatOr0 (jsGet normalizedRow k)
      | [] => 0
  (deforestation, reforestation)

/-- Canonical record (`ForestData` in `src/types/forest-data.ts`). The
optional `netChange` field is always populated by the normalizer, so it is a
plain field here. -/
structure ForestData where
  id : String
  state : String
  year : ℤ
  deforestation : ℚ
  reforestation : ℚ
  netChange : ℚ
deriving DecidableEq, Repr

/-- Dataset Cleaner (`preprocessData`, data-parser.ts lines 210-225). The
ambient `new Date().getFullYear()` is an explicit `currentYear` parameter;
the `!isNaN(row.year)` conjunct is always true in the `ℤ` model of years.
Note the source computes `netChange` from the row's original (unclamped)
amounts while storing the clamped amounts. -/
def preprocessData (currentYear : ℤ) (data : List ForestData) : List ForestData :=
  (data.filter fun row =>
      row.state != "" && decide (1900 < row.year) && decide (row.year ≤ currentYear)).map
    fun row =>
      { row with
        deforestation := max 0 row.deforestation
        reforestation := max 0 row.reforestation
        netChange := row.reforestation - row.deforestation }

/-- User-selected filters (`FilterValues` in the types module); `null` is
`none`. -/
structure FilterValues where
  state : Option String
  year : Option ℤ
  dateRange : Option (ℤ × ℤ)
deriving DecidableEq, Repr

/-- Filter Engine (`filterData`, lines 228-247). Each criterion rejects a row
only when the criterion's value is JS-truthy: a `null` or empty-string region
and a `null` or zero year never reject. -/
def filterData (data : List ForestData) (filters : FilterValues) : List ForestData :=
  data.filter fun row =>
    if (match filters.state with
        | some s => s != "" && row.state != s
        | none => false) then false
    else if (match filters.year with
        | some y => y != 0 && row.year != y
        | none => false) then false
    else if (match filters.dateRange with
        | some p => decide (row.year < p.1) || decide (p.2 < row.year)
        | none => false) then false
    else true

/-- Whole-collection totals (`AggregatedMetrics`). -/
structure AggregatedMetrics where
  totalDeforestation : ℚ
  totalReforestation : ℚ
  netChange : ℚ
deriving DecidableEq, Repr

/-- The `reduce((sum, row) => sum + f(row), 0)` pattern used throughout the
source. -/
def sumBy (f : ForestData → ℚ) (data : List ForestData) : ℚ :=
  data.foldl (fun sum row => sum + f row) 0

/-- `calculateMetrics` (lines 250-260). -/
def calculateMetrics (data : List ForestData) : AggregatedMetrics :=
  let totalDeforestation := sumBy (·.deforestation) data
  let totalReforestation := sumBy (·.reforestation) data
  { totalDeforestation := totalDeforestation
    totalReforestation := totalReforestation
    netChange := totalReforestation - totalDeforestation }

/-- A per-key running total, the value type of the `yearMap` grouping. -/
structure YearTotals where
  year : ℤ
  defSum : ℚ
  refSum : ℚ
  netSum : ℚ
deriving DecidableEq, Repr

/-- The in-place `+=` mutation of the bucket matching `row.year` (lines
295-298); entries for other years are untouched (`row.netChange || 0` is
`row.netChange` in the `ℚ` model). -/
def yearAdd (row : ForestData) (e : YearTotals) : YearTotals :=
  if e.year == row.year then
    ⟨e.year, e.defSum + row.deforestation, e.refSum + row.reforestation,
      e.netSum + row.netChange⟩
  else e

/-- One step of the `yearMap` accumulation of `prepareYearChartData` (lines
290-299): ensure a bucket for `row.year` exists, then add the row's amounts to
it. -/
def yearPush (m : List YearTotals) (row : ForestData) : List YearTotals :=
  let m' := if m.any (fun e => e.year == row.year) then m else m ++ [⟨row.year, 0, 0, 0⟩]
  m'.map (yearAdd row)

/-- A chart-ready bucket (`ChartData`). -/
structure ChartData where
  name : String
  deforestation : ℚ
  reforestation : ℚ
  netChange : ℚ
deriving DecidableEq, Repr

/-- The year buckets of `prepareYearChartData` before display conversion:
grouped in first-seen order, then sorted ascending with the numeric
comparator `(a, b) => a[0] - b[0]` (stable sort, modelled by insertion
sort). -/
def yearBuckets (data : List ForestData) : List YearTotals :=
  (data.foldl yearPush []).insertionSort (fun a b => a.year ≤ b.year)

/-- `prepareYearChartData` (lines 286-308). -/
def prepareYearChartData (data : List ForestData) : List ChartData :=
  (yearBuckets data).map fun e =>
    { name := jsIntToString e.year
      deforestation := e.defSum
      reforestation := e.refSum
      netChange := e.netSum }

/-- `[...data].sort((a, b) => a.year - b.year)`: a stable ascending sort by
year, modelled by insertion sort. -/
def sortByYear (data : List ForestData) : List ForestData :=
  data.insertionSort (fun a b => a.year ≤ b.year)

/-- Insertion-order deduplication, as `[...new Set(xs)]` produces. -/
def jsSetDedup {α : Type} [DecidableEq α] (l : List α) : List α :=
  l.foldl (fun acc x => if x ∈ acc then acc else acc ++ [x]) []

/-- The comparator-less `.sort()` the source applies to year lists (lines 403
and 452), which orders numbers by their decimal string representation. -/
def jsDefaultSortInt (l : List ℤ) : List ℤ :=
  l.insertionSort (fun a b => strLeJS (jsIntToString a) (jsIntToString b) = true)

/-- Benchmark entry (`Benchmark` in Dashboard.tsx). `value` is `none` exactly
when the JavaScript computation produces a non-finite number (`NaN` or
`±Infinity`), which only the unguarded trend divisions can do. -/
structure Benchmark where
  type : String
  name : String
  value : Option ℚ
  unit : String
  state : Option String := none
  period : Option String := none
deriving DecidableEq, Repr

/-- One step of the `stateMap` grouping of `calculateBenchmarks` (lines
331-337): ensure the state's array exists, then push the row onto it. -/
def statePush (m : List (String × List ForestData)) (row : ForestData) :
    List (String × List ForestData) :=
  let m' := if m.any (fun e => e.1 == row.state) then m else m ++ [(row.state, [])]
  m'.map fun e => if e.1 == row.state then (e.1, e.2 ++ [row]) else e

/-- Benchmark Engine `calculateBenchmarks` (lines 324-444). The three overall
benchmarks are pushed first, then (for a non-empty performance ranking) the
best/worst state pair, then (for `≥ 2` distinct years) the two trend
benchmarks, whose divisions are unguarded in the source: a zero first-year
total makes the percentage non-finite (`value = none`). -/
def calculateBenchmarks (data : List ForestData) : List Benchmark :=
  if data.isEmpty then [] else
  let sortedData := sortByYear data
  let sMap := sortedData.foldl statePush []
  let totalDeforestation := sumBy (·.deforestation) sortedData
  let totalReforestation := sumBy (·.reforestation) sortedData
  let yearCount := (jsSetDedup (sortedData.map (·.year))).length
  let overall : List Benchmark :=
    [ { type := "overall", name := "Average Annual Deforestation"
        value := some (if yearCount > 0 then totalDeforestation / yearCount else 0)
        unit := "ha/year" },
      { type := "overall", name := "Average Annual Reforestation"
        value := some (if yearCount > 0 then totalReforestation / yearCount else 0)
        unit := "ha/year" },
      { type := "overall", name := "Reforestation to Deforestation Ratio"
        value := some (if totalDeforestation > 0 then totalReforestation / totalDeforestation else 0)
        unit := "ratio" } ]
  let statePerformance := sMap.map fun e =>
    (e.1, sumBy (·.reforestation) e.2 - sumBy (·.deforestation) e.2)
  let sortedPerformance := statePerformance.insertionSort (fun a b => b.2 ≤ a.2)
  let stateBench : List Benchmark :=
    if sortedPerformance.isEmpty then [] else
    [ { type := "state", name := "Best Performing State"
        value := some (sortedPerformance.headD ("", 0)).2
        unit := "ha net gain", state := some (sortedPerformance.headD ("", 0)).1 },
      { type := "state", name := "Most Challenged State"
        value := some (sortedPerformance.getLastD ("", 0)).2
        unit := "ha net change", state := some (sortedPerformance.getLastD ("", 0)).1 } ]
  let years := jsDefaultSortInt (jsSetDedup (sortedData.map (·.year)))
  let trendBench : List Benchmark :=
    if years.length ≥ 2 then
      let yearlyTotals : List (ℤ × ℚ × ℚ) := years.map fun y =>
        (y, sumBy (·.deforestation) (sortedData.filter (fun r => r.year == y)),
            sumBy (·.reforestation) (sortedData.filter (fun r => r.year == y)))
      let first := yearlyTotals.headD (0, 0, 0)
      let last := yearlyTotals.getLastD (0, 0, 0)
      let deforestationChange : Option ℚ :=
        if first.2.1 = 0 then none else some ((last.2.1 - first.2.1) / first.2.1 * 100)
      let reforestationChange : Option ℚ :=
        if first.2.2 = 0 then none else some ((last.2.2 - first.2.2) / first.2.2 * 100)
      let period := jsIntToString first.1 ++ "-" ++ jsIntToString last.1
      [ { type := "trend", name := "Deforestation Trend", value := deforestationChange
          unit := "% change", period := some period },
        { type := "trend", name := "Reforestation Trend", value := reforestationChange
          unit := "% change", period := some period } ]
    else []
  overall ++ stateBench ++ trendBench

/-- A future-year estimate (`Projection` in Dashboard.tsx); the optional
`isSpecial` flag defaults to absent (`false`). -/
structure Projection where
  year : ℤ
  deforestation : ℚ
  reforestation : ℚ
  netChange : ℚ
  description : String
  isSpecial : Bool := false
deriving DecidableEq, Repr

/-- The distinct-year list of `calculateProjections` (line 452):
`[...new Set(sortedData.map(item => item.year))].sort()`. -/
def projYears (data : List ForestData) : List ℤ :=
  jsDefaultSortInt (jsSetDedup ((sortByYear data).map (·.year)))

/-- The per-year totals of `calculateProjections` (lines 461-472). -/
def yearlyTotalsOf (data : List ForestData) : List YearTotals :=
  (projYears data).map fun y =>
    let yearData := (sortByYear data).filter (fun r => r.year == y)
    ⟨y, sumBy (·.deforestation) yearData, sumBy (·.reforestation) yearData,
      sumBy (·.reforestation) yearData - sumBy (·.deforestation) yearData⟩

/-- The average year-over-year deforestation delta of `calculateProjections`
(lines 476-487). -/
def avgDefChangeOf (data : List ForestData) : ℚ :=
  let t := yearlyTotalsOf data
  let changes := (t.zip t.tail).map fun p => p.2.defSum - p.1.defSum
  changes.foldl (fun sum v => sum + v) 0 / changes.length

/-- The average year-over-year reforestation delta (lines 476-487). -/
def avgRefChangeOf (data : List ForestData) : ℚ :=
  let t := yearlyTotalsOf data
  let changes := (t.zip t.tail).map fun p => p.2.refSum - p.1.refSum
  changes.foldl (fun sum v => sum + v) 0 / changes.length

/-- The latest-year deforestation total (line 490). -/
def currentDefOf (data : List ForestData) : ℚ :=
  ((yearlyTotalsOf data).getLastD ⟨0, 0, 0, 0⟩).defSum

/-- The latest-year reforestation total (line 491). -/
def currentRefOf (data : List ForestData) : ℚ :=
  ((yearlyTotalsOf data).getLastD ⟨0, 0, 0, 0⟩).refSum

/-- Projection Engine `calculateProjections` (lines 447-529). Horizon
projections clamp the projected amounts to `max 0 ·` but compute `netChange`
from the unclamped values; the equilibrium projection is emitted when the
average deltas differ and the crossing time lies strictly between 0 and 30
years, at the rounded crossing year, with `netChange = 0` and the special
flag set. -/
def calculateProjections (data : List ForestData) : List Projection :=
  if data.isEmpty then [] else
  let years := projYears data
  if years.length < 2 then [] else
  let lastYear := years.getLastD 0
  let avgDefChange := avgDefChangeOf data
  let avgRefChange := avgRefChangeOf data
  let currentDef := currentDefOf data
  let currentRef := currentRefOf data
  let horizon : List Projection := ([1, 3, 5] : List ℤ).map fun (yearsAhead : ℤ) =>
    let projectedDef := currentDef + avgDefChange * (yearsAhead : ℚ)
    let projectedRef := currentRef + avgRefChange * (yearsAhead : ℚ)
    let projectedNet := projectedRef - projectedDef
    let projectedYear : ℤ := lastYear + yearsAhead
    { year := projectedYear
      deforestation := max 0 projectedDef
      reforestation := max 0 projectedRef
      netChange := projectedNet
      description := "Projected for " ++ jsIntToString projectedYear ++ " based on " ++
        jsIntToString (years.headD 0) ++ "-" ++ jsIntToString lastYear ++ " trends" }
  let balance : List Projection :=
    if avgDefChange ≠ avgRefChange then
      let yearsToBalance := (currentDef - currentRef) / (avgRefChange - avgDefChange)
      if 0 < yearsToBalance ∧ yearsToBalance < 30 then
        [ { year := round ((lastYear : ℚ) + yearsToBalance)
            deforestation := currentDef + avgDefChange * yearsToBalance
            reforestation := currentRef + avgRefChange * yearsToBalance
            netChange := 0
            description := "Projected equilibrium year (reforestation = deforestation)"
            isSpecial := true } ]
      else []
    else []
  horizon ++ balance

/-- The Filter Engine retention rule as §4.4 of the specification words it,
for comparison against `filterData`: a record is retained iff it satisfies
every non-null criterion (exact region equality, exact year equality, year in
the inclusive range). -/
def retainedPerSpec (filters : FilterValues) (r : ForestData) : Bool :=
  (match filters.state with
   | some s => r.state == s
   | none => true) &&
  (match filters.year with
   | some y => r.year == y
   | none => true) &&
  (match filters.dateRange with
   | some p => decide (p.1 ≤ r.year) && decide (r.year ≤ p.2)
   | none => true)

/-- The retention rule `filterData` actually implements: a criterion is
applied only when JS-truthy, so a `some ""` region and a `some 0` year are
skipped like `null` ones. -/
def retainedEffective (filters : FilterValues) (r : ForestData) : Bool :=
  (match filters.state with
   | some s => s == "" || r.state == s
   | none => true) &&
  (match filters.year with
   | some y => y == 0 || r.year == y
   | none => true) &&
  (match filters.dateRange with
   | some p => decide (p.1 ≤ r.year) && decide (r.year ≤ p.2)
   | none => true)

/-- Per-year loss total stated directly over the input collection, as §4.7 of
the specification describes the per-year totals (for comparison with the
engine's computation, which sums over a sorted copy). -/
def lossTotalIn (data : List ForestData) (y : ℤ) : ℚ :=
  sumBy (·.deforestation) (data.filter (fun r => r.year == y))

/-- Per-year gain total stated directly over the input collection (§4.7). -/
def gainTotalIn (data : List ForestData) (y : ℤ) : ℚ :=
  sumBy (·.reforestation) (data.filter (fun r => r.year == y))

/-- The average year-over-year loss delta as §4.7 of the specification
describes it: the per-year total deltas between adjacent entries of the
engine's distinct-year list, averaged over the number of adjacent pairs. -/
def avgLossDeltaSpec (data : List ForestData) : ℚ :=
  (((projYears data).zip (projYears data).tail).map
    (fun p => lossTotalIn data p.2 - lossTotalIn data p.1)).sum /
    (((projYears data).length - 1 : ℕ) : ℚ)

/-- The average year-over-year gain delta, stated like `avgLossDeltaSpec`. -/
def avgGainDeltaSpec (data : List ForestData) : ℚ :=
  (((projYears data).zip (projYears data).tail).map
    (fun p => gainTotalIn data p.2 - gainTotalIn data p.1)).sum /
    (((projYears data).length - 1 : ℕ) : ℚ)

/-! ## General helper lemmas -/

/-- Every string contains the empty string (`s.includes("")` is `true`). -/
theorem strIncludes_empty_right (s : String) : strIncludes s "" = true := by
  cases s with
  | mk data => cases data <;> simp [strIncludes, listOccursIn, listLeadsWith, String.toList]

/-- `sumBy` as a `List.sum` of the mapped values. -/
theorem sumBy_eq_sum (f : ForestData → ℚ) (l : List ForestData) :
    sumBy f l = (l.map f).sum := by
  suffices h : ∀ a : ℚ, l.foldl (fun sum row => sum + f row) a = a + (l.map f).sum by
    simpa [sumBy] using h 0
  induction l with
  | nil => simp
  | cons r t ih => intro a; simp [ih, add_assoc]

/-- Permuted collections have equal `sumBy` totals. -/
theorem sumBy_perm (f : ForestData → ℚ) {l₁ l₂ : List ForestData} (h : l₁.Perm l₂) :
    sumBy f l₁ = sumBy f l₂ := by
  rw [sumBy_eq_sum, sumBy_eq_sum]
  exact (h.map f).sum_eq

/-- The year-sorted copy is a permutation of the input. -/
theorem sortByYear_perm (data : List ForestData) : (sortByYear data).Perm data :=
  List.perm_insertionSort _ data

/-! ## C1 and C2: the Dataset Cleaner's netChange slip -/

/-- C1: the claim that every record output by `preprocessData` satisfies
`netChange = gainAmount - lossAmount` over the stored (clamped) amounts is
false: on a record with a negative loss amount the source stores the clamped
amounts but computes `netChange` from the unclamped ones. -/
theorem preprocessData_netChange_invariant_fails :
    ∃ r ∈ preprocessData 2025 [⟨"id1", "A", 2000, -1, 0, 1⟩],
      r.netChange ≠ r.reforestation - r.deforestation := by
  refine ⟨⟨"id1", "A", 2000, 0, 0, 1⟩, ?_, by norm_num⟩
  have h : preprocessData 2025 [⟨"id1", "A", 2000, -1, 0, 1⟩] =
      [⟨"id1", "A", 2000, 0, 0, 1⟩] := by
    simp [preprocessData, List.filter_cons, ForestData.mk.injEq, max_def]
  rw [h]
  exact List.mem_singleton.mpr rfl

/-- C2: `preprocessData` is not idempotent: a second application recomputes
`netChange` from the now-clamped amounts and changes it. -/
theorem preprocessData_not_idempotent :
    preprocessData 2025 (preprocessData 2025 [⟨"id1", "A", 2000, -1, 0, 1⟩]) ≠
      preprocessData 2025 [⟨"id1", "A", 2000, -1, 0, 1⟩] := by
  simp [preprocessData, List.filter_cons, ForestData.mk.injEq, max_def]
  norm_num

/-! ## C10: the Dataset Cleaner only touches the amount fields -/

/-- C10: the `(id, region, year)` triples of the cleaner's output form a
subsequence of the input's triples: identity fields are preserved and
surviving records keep their relative order. -/
theorem preprocessData_frame (currentYear : ℤ) (data : List ForestData) :
    ((preprocessData currentYear data).map fun r => (r.id, r.state, r.year)).Sublist
      (data.map fun r => (r.id, r.state, r.year)) := by
  unfold preprocessData
  rw [List.map_map]
  exact (List.filter_sublist data).map _

/-! ## C6: the Filter Engine and JS truthiness -/

/-- C6 counterexample: with the non-null region criterion `some ""`, a record
whose region is `"A"` fails the specification's retention rule yet is kept by
`filterData` (the empty string is JS-falsy, so the criterion is skipped). -/
theorem filterData_spec_retention_fails :
    retainedPerSpec ⟨some "", none, none⟩ ⟨"id1", "A", 2000, 0, 0, 0⟩ = false ∧
    filterData [⟨"id1", "A", 2000, 0, 0, 0⟩] ⟨some "", none, none⟩ =
      [⟨"id1", "A", 2000, 0, 0, 0⟩] := by
  constructor
  · simp [retainedPerSpec]
  · simp [filterData, List.filter_cons]

/-- C6 (amended): `filterData` retains exactly the records satisfying all
JS-truthy criteria (non-null, with region ≠ `""` and year ≠ `0`), and with no
criteria set it returns the input unchanged. -/
theorem filterData_characterization (data : List ForestData) (filters : FilterValues) :
    filterData data filters = data.filter (retainedEffective filters) ∧
    filterData data ⟨none, none, none⟩ = data := by
  constructor
  · unfold filterData
    apply List.filter_congr
    intro r _
    rcases filters with ⟨os, oy, od⟩
    rcases os with _ | s <;> rcases oy with _ | y <;> rcases od with _ | ⟨lo, hi⟩ <;>
      simp only [retainedEffective] <;>
      split_ifs <;>
      simp_all [bne_iff_ne, beq_iff_eq, decide_eq_true_eq, not_or, not_lt] <;>
      first
      | omega
      | tauto
  · simp [filterData, List.filter_cons]

/-! ## C3: the Row Normalizer's unresolved loss/gain fallback -/

/-- C3 counterexample: on a row with two unclaimed numeric fields and all
columns unresolved, the gain fallback does not take the second remaining
numeric field: both amounts come from the first one (`"aa"`, value 5), even
though the second field (`"bb"`) holds 7 — the exclusion `key !==
deforestationField` compares against the unresolved (empty) loss field name
and never fires. -/
theorem extractAmounts_gain_not_second_field :
    (identifyColumnMapping [("aa", JSValue.num 5), ("bb", JSValue.num 7)]).deforestationField
        = "" ∧
    (identifyColumnMapping [("aa", JSValue.num 5), ("bb", JSValue.num 7)]).reforestationField
        = "" ∧
    jsGet (normalizeRow [("aa", JSValue.num 5), ("bb", JSValue.num 7)]) "bb" =
        some (JSValue.num 7) ∧
    extractAmounts (normalizeRow [("aa", JSValue.num 5), ("bb", JSValue.num 7)])
        (identifyColumnMapping [("aa", JSValue.num 5), ("bb", JSValue.num 7)]) = (5, 5) :=
  ⟨by decide, by decide, by decide, by decide⟩

/-- C3 (amended): when the Column Resolver leaves both the loss field and the
gain field unresolved, the gain fallback selects the same field as the loss
fallback (the first remaining numeric field not contained in the resolved
year field name), so the extracted gain always equals the extracted loss. -/
theorem extractAmounts_unresolved_gain_duplicates_loss (nrow : RawRow) (m : ColumnMapping)
    (hd : m.deforestationField = "") (hr : m.reforestationField = "") :
    (extractAmounts nrow m).2 = (extractAmounts nrow m).1 := by
  unfold extractAmounts
  rw [hd, hr]
  simp only [bne_self_eq_false, Bool.false_eq_true, if_false]
  have hfilter :
      (nrow.map (·.1)).filter (fun key =>
          ((match jsGet nrow key with
            | some v => isNumeric v
            | none => false) && !(strIncludes m.yearField key)) && key != "") =
      (nrow.map (·.1)).filter (fun key =>
          (match jsGet nrow key with
           | some v => isNumeric v
           | none => false) && !(strIncludes m.yearField key)) := by
    apply List.filter_congr
    intro k _
    by_cases hk : k = ""
    · subst hk
      simp [strIncludes_empty_right]
    · simp [bne_iff_ne, hk]
  rw [hfilter]

/-- Witness for the amended C3 theorem at a concrete unresolved row. -/
theorem extractAmounts_unresolved_gain_duplicates_loss_witness :
    (identifyColumnMapping [("cc", JSValue.num 3), ("dd", JSValue.num 4)]).deforestationField
        = "" ∧
    (identifyColumnMapping [("cc", JSValue.num 3), ("dd", JSValue.num 4)]).reforestationField
        = "" ∧
    (extractAmounts (normalizeRow [("cc", JSValue.num 3), ("dd", JSValue.num 4)])
        (identifyColumnMapping [("cc", JSValue.num 3), ("dd", JSValue.num 4)])).2 =
      (extractAmounts (normalizeRow [("cc", JSValue.num 3), ("dd", JSValue.num 4)])
        (identifyColumnMapping [("cc", JSValue.num 3), ("dd", JSValue.num 4)])).1 :=
  ⟨by decide, by decide,
    extractAmounts_unresolved_gain_duplicates_loss _ _ (by decide) (by decide)⟩

theorem yearAdd_year (row : ForestData) (e : YearTotals) : (yearAdd row e).year = e.year := by
  unfold yearAdd
  split_ifs <;> rfl

theorem yearAdd_of_ne (row : ForestData) (e : YearTotals) (h : e.year ≠ row.year) :
    yearAdd row e = e := by
  simp [yearAdd, h]

theorem map_yearAdd_keys (row : ForestData) (l : List YearTotals) :
    (l.map (yearAdd row)).map (·.year) = l.map (·.year) := by
  rw [List.map_map]
  apply List.map_congr_left
  intro e _
  exact yearAdd_year row e

theorem map_yearAdd_of_not_mem (row : ForestData) (l : List YearTotals)
    (h : row.year ∉ l.map (·.year)) : l.map (yearAdd row) = l := by
  conv_rhs => rw [← List.map_id l]
  apply List.map_congr_left
  intro e he
  have : e.year ≠ row.year := fun hx => h (hx ▸ List.mem_map_of_mem (·.year) he)
  simp [yearAdd_of_ne row e this]

theorem yearPush_any_iff (m : List YearTotals) (row : ForestData) :
    (m.any fun e => e.year == row.year) = true ↔ row.year ∈ m.map (·.year) := by
  rw [List.any_eq_true]
  simp [List.mem_map, beq_iff_eq]

theorem yearPush_of_mem (m : List YearTotals) (row : ForestData)
    (hmem : row.year ∈ m.map (·.year)) : yearPush m row = m.map (yearAdd row) := by
  unfold yearPush
  rw [if_pos ((yearPush_any_iff m row).mpr hmem)]

theorem yearPush_of_not_mem (m : List YearTotals) (row : ForestData)
    (hmem : row.year ∉ m.map (·.year)) :
    yearPush m row = (m ++ [(⟨row.year, 0, 0, 0⟩ : YearTotals)]).map (yearAdd row) := by
  unfold yearPush
  have hno : (m.any fun e => e.year == row.year) = false := by
    rw [← Bool.not_eq_true, yearPush_any_iff]; exact hmem
  rw [hno]
  simp

theorem yearPush_keys (m : List YearTotals) (row : ForestData) :
    (yearPush m row).map (·.year) =
      if row.year ∈ m.map (·.year) then m.map (·.year) else m.map (·.year) ++ [row.year] := by
  by_cases hmem : row.year ∈ m.map (·.year)
  · rw [if_pos hmem, yearPush_of_mem m row hmem, map_yearAdd_keys]
  · rw [if_neg hmem, yearPush_of_not_mem m row hmem, map_yearAdd_keys]
    simp

theorem map_yearAdd_defSum_of_mem (row : ForestData) :
    ∀ l : List YearTotals, (l.map (·.year)).Nodup → row.year ∈ l.map (·.year) →
      ((l.map (yearAdd row)).map (·.defSum)).sum =
        (l.map (·.defSum)).sum + row.deforestation := by
  intro l
  induction l with
  | nil => intro _ hmem; simp at hmem
  | cons e t ih =>
    intro hnd hmem
    rw [List.map_cons] at hnd
    obtain ⟨hnot, hndt⟩ := List.nodup_cons.mp hnd
    by_cases he : e.year = row.year
    · have ht : t.map (yearAdd row) = t := by
        apply map_yearAdd_of_not_mem
        rw [← he]
        exact hnot
      simp only [List.map_cons, ht, List.sum_cons, yearAdd, beq_iff_eq, he, if_true]
      ring
    · have hmem' : row.year ∈ t.map (·.year) := by
        rcases List.mem_cons.mp hmem with h | h
        · exact absurd h.symm he
        · exact h
      simp only [List.map_cons, List.sum_cons, yearAdd_of_ne row e he]
      rw [ih hndt hmem']
      ring

theorem yearPush_defSum (m : List YearTotals) (row : ForestData)
    (hnd : (m.map (·.year)).Nodup) :
    ((yearPush m row).map (·.defSum)).sum = (m.map (·.defSum)).sum + row.deforestation := by
  by_cases hmem : row.year ∈ m.map (·.year)
  · rw [yearPush_of_mem m row hmem]
    exact map_yearAdd_defSum_of_mem row m hnd hmem
  · rw [yearPush_of_not_mem m row hmem, List.map_append, map_yearAdd_of_not_mem row m hmem]
    simp [yearAdd]

theorem yearPush_nodup (m : List YearTotals) (row : ForestData)
    (hnd : (m.map (·.year)).Nodup) : ((yearPush m row).map (·.year)).Nodup := by
  rw [yearPush_keys]
  split_ifs with hmem
  · exact hnd
  · simp [List.nodup_append, hnd, hmem]

theorem foldl_yearPush_nodup (data : List ForestData) :
    ∀ m : List YearTotals, (m.map (·.year)).Nodup →
      ((data.foldl yearPush m).map (·.year)).Nodup := by
  induction data with
  | nil => intro m h; simpa using h
  | cons r t ih =>
    intro m h
    simp only [List.foldl_cons]
    exact ih _ (yearPush_nodup m r h)

theorem foldl_yearPush_mem (data : List ForestData) :
    ∀ (m : List YearTotals) (y : ℤ),
      y ∈ (data.foldl yearPush m).map (·.year) ↔
        y ∈ m.map (·.year) ∨ y ∈ data.map (·.year) := by
  induction data with
  | nil => intro m y; simp
  | cons r t ih =>
    intro m y
    simp only [List.foldl_cons, List.map_cons, List.mem_cons]
    rw [ih, yearPush_keys]
    split_ifs with hmem
    · have hy : y = r.year → y ∈ m.map (·.year) := fun h => h ▸ hmem
      tauto
    · simp only [List.mem_append, List.mem_singleton]
      tauto

theorem foldl_yearPush_defSum (data : List ForestData) :
    ∀ m : List YearTotals, (m.map (·.year)).Nodup →
      ((data.foldl yearPush m).map (·.defSum)).sum =
        (m.map (·.defSum)).sum + (data.map (·.deforestation)).sum := by
  induction data with
  | nil => intro m _; simp
  | cons r t ih =>
    intro m h
    simp only [List.foldl_cons, List.map_cons, List.sum_cons]
    rw [ih _ (yearPush_nodup m r h), yearPush_defSum m r h]
    ring

theorem prepareYearChartData_sorted_and_total (data : List ForestData) :
    ((yearBuckets data).map (·.year)).Pairwise (· < ·) ∧
    ((yearBuckets data).map (·.year)).toFinset = (data.map (·.year)).toFinset ∧
    ((prepareYearChartData data).map (·.deforestation)).sum =
      (calculateMetrics data).totalDeforestation := by
  have hgnodup : ((data.foldl yearPush []).map (·.year)).Nodup :=
    foldl_yearPush_nodup data [] (by simp)
  have hperm : (yearBuckets data).Perm (data.foldl yearPush []) :=
    List.perm_insertionSort _ _
  have hkeysperm := hperm.map (·.year)
  have hnodup : ((yearBuckets data).map (·.year)).Nodup := hkeysperm.nodup_iff.mpr hgnodup
  refine ⟨?_, ?_, ?_⟩
  · haveI : IsTotal YearTotals (fun a b => a.year ≤ b.year) :=
      ⟨fun a b => le_total a.year b.year⟩
    haveI : IsTrans YearTotals (fun a b => a.year ≤ b.year) :=
      ⟨fun a b c hab hbc => le_trans hab hbc⟩
    have hsorted : List.Sorted (fun a b : YearTotals => a.year ≤ b.year) (yearBuckets data) :=
      List.sorted_insertionSort _ _
    have hle : ((yearBuckets data).map (·.year)).Pairwise (· ≤ ·) :=
      List.pairwise_map.mpr hsorted
    have hne : ((yearBuckets data).map (·.year)).Pairwise (· ≠ ·) := hnodup
    exact (hle.and hne).imp fun h => lt_of_le_of_ne h.1 h.2
  · ext y
    simp only [List.mem_toFinset]
    rw [hkeysperm.mem_iff, foldl_yearPush_mem data [] y]
    simp
  · have h1 : (prepareYearChartData data).map (·.deforestation) =
        (yearBuckets data).map (·.defSum) := by
      unfold prepareYearChartData
      rw [List.map_map]
      rfl
    rw [h1, (hperm.map (·.defSum)).sum_eq, foldl_yearPush_defSum data [] (by simp)]
    simp [calculateMetrics, sumBy_eq_sum]

/-! ## C8: the Benchmark Engine on empty and single-region single-year data -/

theorem foldl_statePush_const (s : String) :
    ∀ (l : List ForestData) (rows : List ForestData), (∀ r ∈ l, r.state = s) →
      l.foldl statePush [(s, rows)] = [(s, rows ++ l)] := by
  intro l
  induction l with
  | nil => intro rows _; simp
  | cons r t ih =>
    intro rows hall
    have hr : r.state = s := hall r (List.mem_cons_self r t)
    have hpush : statePush [(s, rows)] r = [(s, rows ++ [r])] := by
      simp [statePush, hr]
    simp only [List.foldl_cons, hpush]
    rw [ih (rows ++ [r]) (fun x hx => hall x (List.mem_cons_of_mem r hx))]
    simp

theorem foldl_statePush_nonempty_const (data : List ForestData) (s : String)
    (hne : data ≠ []) (hs : ∀ r ∈ data, r.state = s) :
    data.foldl statePush [] = [(s, data)] := by
  cases data with
  | nil => exact absurd rfl hne
  | cons r t =>
    have hr : r.state = s := hs r (List.mem_cons_self r t)
    have hfirst : statePush [] r = [(r.state, [r])] := by
      simp [statePush]
    simp only [List.foldl_cons, hfirst, hr]
    rw [foldl_statePush_const s t [r] (fun x hx => hs x (List.mem_cons_of_mem r hx))]
    simp

theorem jsSetDedup_const {α : Type} [DecidableEq α] (y : α) :
    ∀ l : List α, (∀ x ∈ l, x = y) → l ≠ [] → jsSetDedup l = [y] := by
  have haux : ∀ l : List α, (∀ x ∈ l, x = y) →
      l.foldl (fun acc x => if x ∈ acc then acc else acc ++ [x]) [y] = [y] := by
    intro l
    induction l with
    | nil => intro _; rfl
    | cons x t ih =>
      intro hall
      have hx : x = y := hall x (List.mem_cons_self x t)
      simp only [List.foldl_cons, hx, List.mem_singleton, if_pos rfl]
      exact ih fun z hz => hall z (List.mem_cons_of_mem x hz)
  intro l hall hne
  cases l with
  | nil => exact absurd rfl hne
  | cons x t =>
    have hx : x = y := hall x (List.mem_cons_self x t)
    unfold jsSetDedup
    simp only [List.foldl_cons, List.not_mem_nil, if_neg (List.not_mem_nil x), List.nil_append,
      hx]
    exact haux t fun z hz => hall z (List.mem_cons_of_mem x hz)

/-- C8: the Benchmark Engine returns the empty list on an empty collection;
on a non-empty collection all of whose records share one region and one year
it returns exactly 5 benchmarks: the three overall ones, then the best
performer and the most challenged entries, both naming that region, and no
trend benchmarks. -/
theorem calculateBenchmarks_empty_and_single_group (data : List ForestData) (s : String)
    (y : ℤ) (hne : data ≠ []) (hs : ∀ r ∈ data, r.state = s) (hy : ∀ r ∈ data, r.year = y) :
    calculateBenchmarks [] = [] ∧
    (calculateBenchmarks data).length = 5 ∧
    (calculateBenchmarks data).map (·.type) =
      ["overall", "overall", "overall", "state", "state"] ∧
    (calculateBenchmarks data).map (·.name) =
      ["Average Annual Deforestation", "Average Annual Reforestation",
        "Reforestation to Deforestation Ratio", "Best Performing State",
        "Most Challenged State"] ∧
    ((calculateBenchmarks data).drop 3).map (·.state) = [some s, some s] := by
  have hsd_perm := sortByYear_perm data
  have hsd_ne : sortByYear data ≠ [] := by
    intro h
    exact hne (List.Perm.eq_nil (h ▸ hsd_perm).symm)
  have hss : ∀ r ∈ sortByYear data, r.state = s := fun r hr => hs r (hsd_perm.mem_iff.mp hr)
  have hsy : ∀ r ∈ sortByYear data, r.year = y := fun r hr => hy r (hsd_perm.mem_iff.mp hr)
  have hsmap : (sortByYear data).foldl statePush [] = [(s, sortByYear data)] :=
    foldl_statePush_nonempty_const _ s hsd_ne hss
  have hdedup : jsSetDedup ((sortByYear data).map (·.year)) = [y] := by
    apply jsSetDedup_const
    · intro x hx
      obtain ⟨r, hr, hrx⟩ := List.mem_map.mp hx
      exact hrx ▸ hsy r hr
    · simp only [ne_eq, List.map_eq_nil_iff]
      exact hsd_ne
  have hsort1 : jsDefaultSortInt [y] = [y] := rfl
  have hempty : calculateBenchmarks [] = [] := rfl
  have hde : data.isEmpty = false := by
    cases data with
    | nil => exact absurd rfl hne
    | cons a t => rfl
  refine ⟨hempty, ?_, ?_, ?_, ?_⟩ <;>
  · simp only [calculateBenchmarks, hde, Bool.false_eq_true, if_false, hsmap, hdedup, hsort1]
    simp

/-- Witness for C8 at a concrete one-record collection. -/
theorem calculateBenchmarks_single_group_witness :
    (calculateBenchmarks [⟨"i", "K", 2019, 1, 2, 1⟩]).length = 5 :=
  (calculateBenchmarks_empty_and_single_group [⟨"i", "K", 2019, 1, 2, 1⟩] "K" 2019
    (by simp) (by simp) (by simp)).2.1

/-! ## C9: the Projection Engine on the two-year specification example -/

/-- C9: on the collection with 2018 totals loss=100, gain=50 and 2019 totals
loss=80, gain=70, the engine computes average deltas -20 and +20, its +1
horizon projection is loss=60, gain=90, netChange=30, and it emits the
equilibrium projection at `round(2019 + 0.25) = 2019` with netChange 0 and
the special flag set. -/
theorem calculateProjections_two_year_example :
    avgDefChangeOf [⟨"a", "A", 2018, 100, 50, -50⟩, ⟨"b", "A", 2019, 80, 70, -10⟩] = -20 ∧
    avgRefChangeOf [⟨"a", "A", 2018, 100, 50, -50⟩, ⟨"b", "A", 2019, 80, 70, -10⟩] = 20 ∧
    calculateProjections [⟨"a", "A", 2018, 100, 50, -50⟩, ⟨"b", "A", 2019, 80, 70, -10⟩] =
      [⟨2020, 60, 90, 30, "Projected for 2020 based on 2018-2019 trends", false⟩,
       ⟨2022, 20, 130, 110, "Projected for 2022 based on 2018-2019 trends", false⟩,
       ⟨2024, 0, 170, 190, "Projected for 2024 based on 2018-2019 trends", false⟩,
       ⟨2019, 75, 75, 0, "Projected equilibrium year (reforestation = deforestation)",
         true⟩] := by
  have h1 : sortByYear [⟨"a", "A", 2018, 100, 50, -50⟩, ⟨"b", "A", 2019, 80, 70, -10⟩] =
      [⟨"a", "A", 2018, 100, 50, -50⟩, ⟨"b", "A", 2019, 80, 70, -10⟩] := by decide
  have h2 : projYears [⟨"a", "A", 2018, 100, 50, -50⟩, ⟨"b", "A", 2019, 80, 70, -10⟩] =
      [2018, 2019] := by decide
  have h3 : yearlyTotalsOf [⟨"a", "A", 2018, 100, 50, -50⟩, ⟨"b", "A", 2019, 80, 70, -10⟩] =
      [⟨2018, 100, 50, -50⟩, ⟨2019, 80, 70, -10⟩] := by
    simp [yearlyTotalsOf, h1, h2, sumBy, List.filter, YearTotals.mk.injEq]
    all_goals norm_num
  have h4 : avgDefChangeOf [⟨"a", "A", 2018, 100, 50, -50⟩, ⟨"b", "A", 2019, 80, 70, -10⟩] =
      -20 := by
    simp [avgDefChangeOf, h3]
    norm_num
  have h5 : avgRefChangeOf [⟨"a", "A", 2018, 100, 50, -50⟩, ⟨"b", "A", 2019, 80, 70, -10⟩] =
      20 := by
    simp [avgRefChangeOf, h3]
    norm_num
  have h6 : currentDefOf [⟨"a", "A", 2018, 100, 50, -50⟩, ⟨"b", "A", 2019, 80, 70, -10⟩] =
      80 := by
    simp [currentDefOf, h3]
  have h7 : currentRefOf [⟨"a", "A", 2018, 100, 50, -50⟩, ⟨"b", "A", 2019, 80, 70, -10⟩] =
      70 := by
    simp [currentRefOf, h3]
  refine ⟨h4, h5, ?_⟩
  simp only [calculateProjections, h2, h4, h5, h6, h7]
  norm_num [Projection.mk.injEq, round_eq]
  all_goals decide

/-! ## C4: the Projection Engine horizon projections -/

/-- C4 counterexample: the emitted `netChange` is computed from the unclamped
projected amounts, so it can differ from the stored (clamped)
`gainAmount - lossAmount`: here the +1 horizon stores loss=0, gain=0 but
netChange=10. -/
theorem calculateProjections_netChange_not_clamped_difference :
    ∃ p ∈ calculateProjections [⟨"a", "A", 2000, 10, 0, -10⟩, ⟨"b", "A", 2001, 0, 0, 0⟩],
      p.netChange ≠ p.reforestation - p.deforestation := by
  have h1 : sortByYear [⟨"a", "A", 2000, 10, 0, -10⟩, ⟨"b", "A", 2001, 0, 0, 0⟩] =
      [⟨"a", "A", 2000, 10, 0, -10⟩, ⟨"b", "A", 2001, 0, 0, 0⟩] := by decide
  have h2 : projYears [⟨"a", "A", 2000, 10, 0, -10⟩, ⟨"b", "A", 2001, 0, 0, 0⟩] =
      [2000, 2001] := by decide
  have h3 : yearlyTotalsOf [⟨"a", "A", 2000, 10, 0, -10⟩, ⟨"b", "A", 2001, 0, 0, 0⟩] =
      [⟨2000, 10, 0, -10⟩, ⟨2001, 0, 0, 0⟩] := by
    simp [yearlyTotalsOf, h1, h2, sumBy, List.filter, YearTotals.mk.injEq]
  have h4 : avgDefChangeOf [⟨"a", "A", 2000, 10, 0, -10⟩, ⟨"b", "A", 2001, 0, 0, 0⟩] =
      -10 := by
    simp [avgDefChangeOf, h3]
  have h5 : avgRefChangeOf [⟨"a", "A", 2000, 10, 0, -10⟩, ⟨"b", "A", 2001, 0, 0, 0⟩] =
      0 := by
    simp [avgRefChangeOf, h3]
  have h6 : currentDefOf [⟨"a", "A", 2000, 10, 0, -10⟩, ⟨"b", "A", 2001, 0, 0, 0⟩] = 0 := by
    simp [currentDefOf, h3]
  have h7 : currentRefOf [⟨"a", "A", 2000, 10, 0, -10⟩, ⟨"b", "A", 2001, 0, 0, 0⟩] = 0 := by
    simp [currentRefOf, h3]
  have hout : calculateProjections [⟨"a", "A", 2000, 10, 0, -10⟩, ⟨"b", "A", 2001, 0, 0, 0⟩] =
      [⟨2002, 0, 0, 10, "Projected for 2002 based on 2000-2001 trends", false⟩,
       ⟨2004, 0, 0, 30, "Projected for 2004 based on 2000-2001 trends", false⟩,
       ⟨2006, 0, 0, 50, "Projected for 2006 based on 2000-2001 trends", false⟩] := by
    simp only [calculateProjections, h2, h4, h5, h6, h7]
    norm_num [Projection.mk.injEq]
    all_goals decide
  rw [hout]
  refine ⟨_, List.mem_cons_self _ _, ?_⟩
  norm_num

theorem foldl_add_eq_sum (l : List ℚ) : l.foldl (fun sum v => sum + v) 0 = l.sum := by
  suffices h : ∀ a : ℚ, l.foldl (fun sum v => sum + v) a = a + l.sum by simpa using h 0
  induction l with
  | nil => intro a; simp
  | cons x t ih => intro a; simp [ih, add_assoc]

theorem getLastD_map {α β : Type} (f : α → β) :
    ∀ l : List α, l ≠ [] → ∀ (d : β) (d' : α), (l.map f).getLastD d = f (l.getLastD d') := by
  intro l
  induction l with
  | nil => intro h; exact absurd rfl h
  | cons a t ih =>
    intro _ d d'
    cases t with
    | nil => rfl
    | cons b t2 =>
      have h1 : (List.map f (a :: b :: t2)).getLastD d =
          (List.map f (b :: t2)).getLastD (f a) := by
        rw [List.map_cons]
        exact List.getLastD_cons _ _ _
      have h2 : (a :: b :: t2).getLastD d' = (b :: t2).getLastD a :=
        List.getLastD_cons _ _ _
      rw [h1, h2]
      exact ih (by simp) (f a) a

theorem yearlyTotalsOf_eq (data : List ForestData) :
    yearlyTotalsOf data = (projYears data).map fun y =>
      ⟨y, lossTotalIn data y, gainTotalIn data y,
        gainTotalIn data y - lossTotalIn data y⟩ := by
  simp only [yearlyTotalsOf]
  apply List.map_congr_left
  intro y _
  have hd : sumBy (·.deforestation) ((sortByYear data).filter (fun r => r.year == y)) =
      lossTotalIn data y :=
    sumBy_perm _ ((sortByYear_perm data).filter _)
  have hr : sumBy (·.reforestation) ((sortByYear data).filter (fun r => r.year == y)) =
      gainTotalIn data y :=
    sumBy_perm _ ((sortByYear_perm data).filter _)
  simp only [hd, hr]

theorem avgDefChangeOf_eq (data : List ForestData) :
    avgDefChangeOf data = avgLossDeltaSpec data := by
  simp only [avgDefChangeOf, avgLossDeltaSpec]
  rw [yearlyTotalsOf_eq, ← List.map_tail, List.zip_map, List.map_map, foldl_add_eq_sum]
  congr 1
  congr 1
  rw [List.length_map, List.length_zip, List.length_tail]
  omega

theorem avgRefChangeOf_eq (data : List ForestData) :
    avgRefChangeOf data = avgGainDeltaSpec data := by
  simp only [avgRefChangeOf, avgGainDeltaSpec]
  rw [yearlyTotalsOf_eq, ← List.map_tail, List.zip_map, List.map_map, foldl_add_eq_sum]
  congr 1
  congr 1
  rw [List.length_map, List.length_zip, List.length_tail]
  omega

theorem currentDefOf_eq (data : List ForestData) (hne : projYears data ≠ []) :
    currentDefOf data = lossTotalIn data ((projYears data).getLastD 0) := by
  simp only [currentDefOf]
  rw [yearlyTotalsOf_eq, getLastD_map _ _ hne (⟨0, 0, 0, 0⟩ : YearTotals) 0]

theorem currentRefOf_eq (data : List ForestData) (hne : projYears data ≠ []) :
    currentRefOf data = gainTotalIn data ((projYears data).getLastD 0) := by
  simp only [currentRefOf]
  rw [yearlyTotalsOf_eq, getLastD_map _ _ hne (⟨0, 0, 0, 0⟩ : YearTotals) 0]

/-- C4 (amended): with fewer than 2 distinct years the Projection Engine
returns the empty list; otherwise its first three projections are exactly the
+1/+3/+5 horizon projections with `lossAmount = max 0 (lastLoss +
avgLossDelta*h)` and `gainAmount = max 0 (lastGain + avgGainDelta*h)` — all
stated via per-year totals taken directly over the input collection — but
`netChange` is the difference of the *unclamped* projected amounts, not of
the stored clamped ones. -/
theorem calculateProjections_horizon_formulas (data : List ForestData) :
    ((projYears data).length < 2 → calculateProjections data = []) ∧
    (2 ≤ (projYears data).length →
      (calculateProjections data).take 3 =
        ([1, 3, 5] : List ℤ).map fun h =>
          { year := (projYears data).getLastD 0 + h
            deforestation := max 0 (lossTotalIn data ((projYears data).getLastD 0) +
              avgLossDeltaSpec data * (h : ℚ))
            reforestation := max 0 (gainTotalIn data ((projYears data).getLastD 0) +
              avgGainDeltaSpec data * (h : ℚ))
            netChange := (gainTotalIn data ((projYears data).getLastD 0) +
              avgGainDeltaSpec data * (h : ℚ)) -
              (lossTotalIn data ((projYears data).getLastD 0) +
                avgLossDeltaSpec data * (h : ℚ))
            description := "Projected for " ++
              jsIntToString ((projYears data).getLastD 0 + h) ++ " based on " ++
              jsIntToString ((projYears data).headD 0) ++ "-" ++
              jsIntToString ((projYears data).getLastD 0) ++ " trends"
            isSpecial := false }) := by
  constructor
  · intro hlt
    simp only [calculateProjections, hlt, if_true]
    split_ifs <;> rfl
  · intro hlen
    have hne : projYears data ≠ [] := by
      intro h
      rw [h] at hlen
      simp at hlen
    have hde : data.isEmpty = false := by
      cases data with
      | nil => exact absurd rfl hne
      | cons a t => rfl
    simp only [calculateProjections, hde, Bool.false_eq_true, if_false,
      if_neg (not_lt.mpr hlen)]
    rw [List.take_left' (by simp)]
    apply List.map_congr_left
    intro h _
    rw [currentDefOf_eq data hne, currentRefOf_eq data hne, avgDefChangeOf_eq,
      avgRefChangeOf_eq]

/-- Witness for the amended C4 theorem at a concrete two-year collection. -/
theorem calculateProjections_horizon_formulas_witness :
    2 ≤ (projYears [⟨"a", "A", 2000, 1, 2, 1⟩, ⟨"b", "A", 2001, 3, 4, 1⟩]).length ∧
    (calculateProjections [⟨"a", "A", 2000, 1, 2, 1⟩, ⟨"b", "A", 2001, 3, 4, 1⟩]).take 3 =
      ([1, 3, 5] : List ℤ).map (fun h =>
        { year := (projYears [⟨"a", "A", 2000, 1, 2, 1⟩, ⟨"b", "A", 2001, 3, 4, 1⟩]).getLastD 0
            + h
          deforestation := max 0
            (lossTotalIn [⟨"a", "A", 2000, 1, 2, 1⟩, ⟨"b", "A", 2001, 3, 4, 1⟩]
              ((projYears [⟨"a", "A", 2000, 1, 2, 1⟩, ⟨"b", "A", 2001, 3, 4, 1⟩]).getLastD 0) +
              avgLossDeltaSpec [⟨"a", "A", 2000, 1, 2, 1⟩, ⟨"b", "A", 2001, 3, 4, 1⟩] * (h : ℚ))
          reforestation := max 0
            (gainTotalIn [⟨"a", "A", 2000, 1, 2, 1⟩, ⟨"b", "A", 2001, 3, 4, 1⟩]
              ((projYears [⟨"a", "A", 2000, 1, 2, 1⟩, ⟨"b", "A", 2001, 3, 4, 1⟩]).getLastD 0) +
              avgGainDeltaSpec [⟨"a", "A", 2000, 1, 2, 1⟩, ⟨"b", "A", 2001, 3, 4, 1⟩] * (h : ℚ))
          netChange :=
            (gainTotalIn [⟨"a", "A", 2000, 1, 2, 1⟩, ⟨"b", "A", 2001, 3, 4, 1⟩]
              ((projYears [⟨"a", "A", 2000, 1, 2, 1⟩, ⟨"b", "A", 2001, 3, 4, 1⟩]).getLastD 0) +
              avgGainDeltaSpec [⟨"a", "A", 2000, 1, 2, 1⟩, ⟨"b", "A", 2001, 3, 4, 1⟩] * (h : ℚ)) -
            (lossTotalIn [⟨"a", "A", 2000, 1, 2, 1⟩, ⟨"b", "A", 2001, 3, 4, 1⟩]
              ((projYears [⟨"a", "A", 2000, 1, 2, 1⟩, ⟨"b", "A", 2001, 3, 4, 1⟩]).getLastD 0) +
              avgLossDeltaSpec [⟨"a", "A", 2000, 1, 2, 1⟩, ⟨"b", "A", 2001, 3, 4, 1⟩] * (h : ℚ))
          description := "Projected for " ++
            jsIntToString
              ((projYears [⟨"a", "A", 2000, 1, 2, 1⟩, ⟨"b", "A", 2001, 3, 4, 1⟩]).getLastD 0 + h)
            ++ " based on " ++
            jsIntToString ((projYears [⟨"a", "A", 2000, 1, 2, 1⟩, ⟨"b", "A", 2001, 3, 4, 1⟩]).headD 0)
            ++ "-" ++
            jsIntToString ((projYears [⟨"a", "A", 2000, 1, 2, 1⟩, ⟨"b", "A", 2001, 3, 4, 1⟩]).getLastD 0)
            ++ " trends"
          isSpecial := false }) :=
  ⟨by decide,
    (calculateProjections_horizon_formulas [⟨"a", "A", 2000, 1, 2, 1⟩, ⟨"b", "A", 2001, 3, 4, 1⟩]).2
      (by decide)⟩

/-! ## C5: the Benchmark Engine's unguarded trend division -/

/-- C5: on a collection whose first chronological year has zero totals, the
year-over-year trend division `(last - first) / first * 100` runs unguarded
and produces a non-finite JavaScript number (modelled as `value = none`),
which reaches the emitted benchmark list — the claim's guaranteed-finite
behaviour does not hold. -/
theorem calculateBenchmarks_unguarded_trend_division :
    ((calculateBenchmarks [⟨"a", "A", 2019, 0, 0, 0⟩, ⟨"b", "A", 2020, 5, 5, 0⟩]).getLastD
        ⟨"", "", none, "", none, none⟩).type = "trend" ∧
    ((calculateBenchmarks [⟨"a", "A", 2019, 0, 0, 0⟩, ⟨"b", "A", 2020, 5, 5, 0⟩]).getLastD
        ⟨"", "", none, "", none, none⟩).name = "Reforestation Trend" ∧
    ((calculateBenchmarks [⟨"a", "A", 2019, 0, 0, 0⟩, ⟨"b", "A", 2020, 5, 5, 0⟩]).getLastD
        ⟨"", "", none, "", none, none⟩).value = none := by
  have h1 : sortByYear [⟨"a", "A", 2019, 0, 0, 0⟩, ⟨"b", "A", 2020, 5, 5, 0⟩] =
      [⟨"a", "A", 2019, 0, 0, 0⟩, ⟨"b", "A", 2020, 5, 5, 0⟩] := by decide
  have h2 : (sortByYear [⟨"a", "A", 2019, 0, 0, 0⟩, ⟨"b", "A", 2020, 5, 5, 0⟩]).foldl
      statePush [] = [("A", [⟨"a", "A", 2019, 0, 0, 0⟩, ⟨"b", "A", 2020, 5, 5, 0⟩])] := by
    decide
  have h3 : jsSetDedup ((sortByYear [⟨"a", "A", 2019, 0, 0, 0⟩,
      ⟨"b", "A", 2020, 5, 5, 0⟩]).map (·.year)) = [2019, 2020] := by decide
  have h4 : jsDefaultSortInt [2019, 2020] = [2019, 2020] := by decide
  have h5 : jsSetDedup [(2019 : ℤ), 2020] = [2019, 2020] := by decide
  have hb1 : ((2020 : ℤ) == 2019) = false := by decide
  have hb2 : ((2019 : ℤ) == 2020) = false := by decide
  simp only [calculateBenchmarks, h1, h2, h3, h4]
  norm_num [h5, h4, hb1, hb2, sumBy, List.filter, List.getLastD]
